import Mathlib

/-!
Verification of the job-orchestration backend (Flask app + Celery task) of the
Bible-story video generator.  The Python sources `src/backend/app.py` and
`src/backend/tasks.py` are shallowly embedded below: Redis is an association
list from keys to job records, every external collaborator (OpenAI, Replicate,
ElevenLabs, ffmpeg, S3) is an oracle parameter recording only what the
orchestration code observes of it (success / failure / returned text), and the
local file system is a list of existing paths.
-/

set_option autoImplicit false

namespace BibleVideo

/-- Job record as stored in Redis by `app.py` (`job_data` dict, app.py:85-95)
and mutated by `update_job_progress` (tasks.py:38-51). -/
structure JobRecord where
  job_id : String
  story : String
  duration : Int
  resolution : String
  tiktok : Bool
  status : String
  progress : Int
  created_at : String
  updated_at : Option String
  error : Option String
deriving Repr, DecidableEq

/-- The Redis store: an association list from redis keys (strings such as
"job:<id>") to job records.  `redis_client.set` prepends (later writes shadow
earlier ones), `redis_client.get` finds the most recent binding.  TTL expiry is
modelled by a key simply being absent. -/
def Store := List (String × JobRecord)

/-- Model of `redis_client.get`. -/
def Store.get (s : Store) (k : String) : Option JobRecord :=
  (List.find? (fun p => p.1 == k) s).map (fun p => p.2)

/-- Model of `redis_client.set` (the `ex=3600` TTL is not modelled; expiry is
absence of the key). -/
def Store.set (s : Store) (k : String) (v : JobRecord) : Store :=
  (k, v) :: s

/-- Model of `update_job_progress` (tasks.py:38-51).  The record is updated only
when the key is present; the `error` field is overwritten only when the `error`
argument is truthy in Python, i.e. a non-empty string (`if error:`), and
`updated_at` is refreshed on every effective write. -/
def update_job_progress (now : String) (s : Store) (job_id status : String)
    (progress : Int) (error : Option String) : Store :=
  match s.get s!"job:{job_id}" with
  | none => s
  | some job_info =>
      s.set s!"job:{job_id}"
        { job_info with
          status := status
          progress := progress
          error := match error with
                   | some e => if e = "" then job_info.error else some e
                   | none => job_info.error
          updated_at := some now }

/-- The fixed story list `BIBLE_STORIES` (app.py:35-40). -/
def BIBLE_STORIES : List String :=
  ["Adam and Eve", "Noah\x27s Ark", "Abraham and Isaac", "Moses and the Exodus",
   "David and Goliath", "Jonah and the Whale", "Daniel in the Lion\x27s Den",
   "Jesus\x27 Birth", "Jesus\x27 Baptism", "The Good Samaritan", "Jesus Feeds 5000",
   "Jesus Walks on Water", "The Resurrection", "Paul\x27s Conversion"]

/-- The `valid_resolutions` list (app.py:77). -/
def valid_resolutions : List String := ["HD", "Full HD", "4K"]

/-- Request body of POST /generate: each field optional, since the handler
checks presence of the four required fields itself (app.py:63-66). -/
structure GenerateRequest where
  story : Option String
  duration : Option Int
  resolution : Option String
  tiktok : Option Bool
deriving Repr, DecidableEq

/-- Response of POST /generate: either a 400 with an error payload, or the 200
success payload `{job_id, status, message}` (app.py:103-107).  The 500 path
(infrastructure exception) is outside the pure model. -/
inductive GenResult where
  | badRequest (error : String)
  | accepted (job_id status message : String)
deriving Repr, DecidableEq

/-- Model of the POST /generate handler `generate_video` (app.py:56-111).
`uuid` is the value of `str(uuid.uuid4())` and `now` that of
`datetime.now().isoformat()`.  Returns the HTTP result and the store after the
handler ran; the enqueued Celery call is the returned `accepted` job id. -/
def generate_video (uuid now : String) (store : Store) (data : GenerateRequest) :
    GenResult × Store :=
  match data.story with
  | none => (.badRequest "Missing required field: story", store)
  | some story =>
  match data.duration with
  | none => (.badRequest "Missing required field: duration", store)
  | some duration =>
  match data.resolution with
  | none => (.badRequest "Missing required field: resolution", store)
  | some resolution =>
  match data.tiktok with
  | none => (.badRequest "Missing required field: tiktok", store)
  | some tiktok =>
  if story ∉ BIBLE_STORIES then
    (.badRequest "Invalid story selection", store)
  else if ¬ (10 ≤ duration ∧ duration ≤ 25) then
    (.badRequest "Duration must be between 10 and 25 minutes", store)
  else if resolution ∉ valid_resolutions then
    (.badRequest "Invalid resolution", store)
  else
    let job_id := uuid
    let job_data : JobRecord :=
      { job_id := job_id
        story := story
        duration := duration
        resolution := resolution
        tiktok := tiktok
        status := "queued"
        progress := 0
        created_at := now
        updated_at := none
        error := none }
    (.accepted job_id "queued" "Video generation started",
     store.set s!"job:{job_id}" job_data)

/-- Response of GET /status/(job_id) (app.py:113-132). -/
inductive StatusResult where
  | notFound (error : String)
  | ok (job_id status : String) (progress : Int) (created_at : String)
       (error : Option String)
deriving Repr, DecidableEq

/-- Model of the GET /status/(job_id) handler `get_job_status`
(app.py:113-132). -/
def get_job_status (store : Store) (job_id : String) : StatusResult :=
  match store.get s!"job:{job_id}" with
  | none => .notFound "Job not found"
  | some job_info =>
      .ok job_id job_info.status job_info.progress job_info.created_at
        job_info.error

/-- Response of GET /download/(job_id) (app.py:134-158): 404 / 400 / a file
stream with a download name. -/
inductive DownloadResult where
  | notFound (error : String)
  | badRequest (error : String)
  | fileStream (path download_name : String)
deriving Repr, DecidableEq

/-- Model of the GET /download/(job_id) handler `download_video`
(app.py:134-158).  `files` is the set of paths existing on disk
(`os.path.exists`). -/
def download_video (files : List String) (store : Store) (job_id : String) :
    DownloadResult :=
  match store.get s!"job:{job_id}" with
  | none => .notFound "Job not found"
  | some job_info =>
      if job_info.status ≠ "completed" then
        .badRequest "Video not ready for download"
      else
        let video_path := s!"/tmp/videos/{job_id}.mp4"
        if files.contains video_path then
          .fileStream video_path s!"{job_info.story}.mp4"
        else
          .notFound "Video file not found"

/-- A scene of the generated script (the JSON shape requested from the script
collaborator, tasks.py:70-83; `duration` in seconds). -/
structure Scene where
  scene_number : Int
  duration : Int
  narration : String
  image_description : String
  timing_start : Int
  timing_end : Int
deriving Repr, DecidableEq

/-- The script: a title and an ordered sequence of scenes (tasks.py:70-83). -/
structure Script where
  title : String
  scenes : List Scene
deriving Repr, DecidableEq

/-- The prompt built by `generate_script` (tasks.py:57-84); the long literal
requirements text and JSON template are elided, keeping the parts that depend
on the inputs. -/
def script_prompt (story : String) (duration : Int) (tiktok_format : Bool) : String :=
  let format_instruction :=
    if tiktok_format then "short-form, engaging TikTok" else "detailed narrative"
  s!"Create a {format_instruction} script for a {duration}-minute video about the Bible story: {story}."

/-- Model of `generate_script` (tasks.py:53-118).  `openai_chat` is the OpenAI
collaborator: applied to the prompt it returns the response message content, or
an error message when the call raises (re-raised by the outer except,
tasks.py:116-118).  `json_loads` models `json.loads` on the content: `none`
when a `JSONDecodeError` would be raised, in which case the handler at
tasks.py:102-114 builds the fallback single-scene script. -/
def generate_script (openai_chat : String → Except String String)
    (json_loads : String → Option Script)
    (story : String) (duration : Int) (tiktok_format : Bool) : Except String Script :=
  match openai_chat (script_prompt story duration tiktok_format) with
  | .error e => .error e
  | .ok script_content =>
      match json_loads script_content with
      | some script_data => .ok script_data
      | none =>
          .ok { title := story
                scenes := [{ scene_number := 1
                             duration := duration * 60
                             narration := script_content
                             image_description := s!"Biblical scene depicting {story}"
                             timing_start := 0
                             timing_end := duration * 60 }] }

/-- The `resolution_map` dict shared by `generate_images` and `stitch_video`
(tasks.py:126-130, 243-247). -/
def resolution_map (resolution : String) : Option String :=
  if resolution = "HD" then some "1280x720"
  else if resolution = "Full HD" then some "1920x1080"
  else if resolution = "4K" then some "3840x2160"
  else none

/-- Model of `resolution_map.get(resolution, '1920x1080')` (tasks.py:132,249). -/
def resolution_dims (resolution : String) : String :=
  (resolution_map resolution).getD "1920x1080"

/-- Per-scene artifact record as appended by `generate_images` /
`generate_voiceover` (tasks.py:169-173, 182-186, 214-218, 224-228): scene
number, produced file path (`none` models Python `None`, the degraded result),
and duration (rational, since the audio duration `len(audio)/22050` is a
Python float). -/
structure MediaArtifact where
  scene_number : Int
  path : Option String
  duration : ℚ
deriving Repr, DecidableEq

/-- The image file path written for loop index `i` (tasks.py:163). -/
def image_file (i : Nat) : String := s!"/tmp/images/scene_{i+1}.png"

/-- The audio file path written for loop index `i` (tasks.py:209). -/
def audio_file (i : Nat) : String := s!"/tmp/audio/scene_{i+1}.wav"

/-- Model of `generate_images` (tasks.py:120-192).  `imgOk i dims` tells
whether, for loop index `i` at the computed dimensions, the whole collaborator
block succeeded (replicate.run, the HTTP download, status code 200 and the file
write, tasks.py:144-175); any failure in that block lands in the per-scene
except (tasks.py:179-186), which appends an artifact with a null path and
continues.  For structurally well-formed scenes nothing outside the per-scene
try can raise, so the stage is total: the outer re-raise (tasks.py:190-192) is
unreachable. -/
def generate_images (imgOk : Nat → String → Bool) (scenes : List Scene)
    (resolution : String) : List MediaArtifact :=
  let dimensions := resolution_dims resolution
  scenes.enum.map (fun p =>
    if imgOk p.1 dimensions then
      { scene_number := p.2.scene_number
        path := some (image_file p.1)
        duration := (p.2.duration : ℚ) }
    else
      { scene_number := p.2.scene_number
        path := none
        duration := (p.2.duration : ℚ) })

/-- Model of `generate_voiceover` (tasks.py:194-234).  `voiceOk i` tells
whether the ElevenLabs generate/save block succeeded for loop index `i`
(tasks.py:202-212), `audioDur i` is the observed `len(audio) / 22050`.  A
failed scene gets a null audio path and the scene's own duration
(tasks.py:224-228); as in `generate_images` the stage never raises once every
scene has been attempted. -/
def generate_voiceover (voiceOk : Nat → Bool) (audioDur : Nat → ℚ)
    (script_data : Script) : List MediaArtifact :=
  script_data.scenes.enum.map (fun p =>
    if voiceOk p.1 then
      { scene_number := p.2.scene_number
        path := some (audio_file p.1)
        duration := audioDur p.1 }
    else
      { scene_number := p.2.scene_number
        path := none
        duration := (p.2.duration : ℚ) })

/-- The segment file path for loop index `i` (tasks.py:261). -/
def segment_file (i : Nat) : String := s!"/tmp/video_segments/segment_{i+1}.mp4"

/-- Model of the per-scene segment loop of `stitch_video` (tasks.py:252-287).
For each scene (in script order) the image and audio artifacts are looked up by
scene number (`next(...)`, tasks.py:257-258; the first match's path, possibly
null); a segment is produced only if both paths are non-null and exist on disk
(`files` is the list of existing paths) and the per-segment ffmpeg invocation
succeeds (`ffmpegOk i`, returncode 0); otherwise the loop logs and moves on. -/
def stitch_segments (ffmpegOk : Nat → Bool) (files : List String)
    (images audio_files : List MediaArtifact) (scenes : List Scene) : List String :=
  scenes.enum.filterMap (fun p =>
    let image_path :=
      (images.find? (fun img => img.scene_number == p.2.scene_number)).bind
        (fun img => img.path)
    let audio_path :=
      (audio_files.find? (fun a => a.scene_number == p.2.scene_number)).bind
        (fun a => a.path)
    match image_path, audio_path with
    | some ip, some ap =>
        if files.contains ip && files.contains ap then
          if ffmpegOk p.1 then some (segment_file p.1) else none
        else none
    | _, _ => none)

/-- Model of `stitch_video` (tasks.py:236-321): build the segments, then, if
any exist, concatenate them (`concatOk` is the final ffmpeg concat returncode
check, tasks.py:298-314) and return the outcome; with zero segments return
False (tasks.py:315-317).  The dimensions and aspect ratio feed only the
ffmpeg command line. -/
def stitch_video (ffmpegOk : Nat → Bool) (concatOk : Bool) (files : List String)
    (script_data : Script) (images audio_files : List MediaArtifact)
    (resolution : String) (tiktok_format : Bool) (output_path : String) : Bool :=
  let _dimensions := resolution_dims resolution
  let _aspect := if tiktok_format then "9:16" else "16:9"
  let _out := output_path
  let segment_paths := stitch_segments ffmpegOk files images audio_files
    script_data.scenes
  if segment_paths.isEmpty then false else concatOk

/-- The parameters extracted from `request_data` at tasks.py:330-333.  The task
is only ever enqueued by `generate_video` with a validated body (app.py:101),
so all four keys are present. -/
structure RequestData where
  story : String
  duration : Int
  resolution : String
  tiktok : Bool
deriving Repr, DecidableEq

/-- The external collaborators observed by one execution of
`generate_video_task`, bundled. -/
structure TaskOracles where
  openai_chat : String → Except String String
  json_loads : String → Option Script
  imgOk : Nat → String → Bool
  voiceOk : Nat → Bool
  audioDur : Nat → ℚ
  ffmpegOk : Nat → Bool
  concatOk : Bool
  s3_bucket : Option String
  s3Ok : Bool

/-- One `update_job_progress` call issued by the task: status, progress and
the optional error argument. -/
structure JobWrite where
  status : String
  progress : Int
  error : Option String
deriving Repr, DecidableEq

/-- Python truthiness of `os.getenv('S3_BUCKET_NAME')` (tasks.py:362): set and
non-empty. -/
def bucket_configured (o : TaskOracles) : Bool :=
  match o.s3_bucket with
  | some b => !(b == "")
  | none => false

/-- Whether the stitch stage of the task run succeeds, recomputed from the same
stage calls the task makes (tasks.py:336-356). -/
def task_stitch_success (o : TaskOracles) (job_id : String) (rd : RequestData) : Bool :=
  match generate_script o.openai_chat o.json_loads rd.story rd.duration rd.tiktok with
  | .error _ => false
  | .ok script_data =>
      let images := generate_images o.imgOk script_data.scenes rd.resolution
      let audio_files := generate_voiceover o.voiceOk o.audioDur script_data
      let files := images.filterMap (fun a => a.path) ++
        audio_files.filterMap (fun a => a.path)
      stitch_video o.ffmpegOk o.concatOk files script_data images audio_files
        rd.resolution rd.tiktok s!"/tmp/videos/{job_id}.mp4"

/-- The ordered sequence of `update_job_progress` calls issued by one execution
of `generate_video_task` (tasks.py:323-379).  The first call (processing, 10)
precedes script generation; `generate_script` is the only stage that can raise
(images/voiceover are total per-scene best-effort, stitch returns a Bool), and
a raise is caught by the outer except which writes (failed, 0, str(e))
(tasks.py:377-379); a stitch failure writes (failed, 0, 'Video stitching
failed') (tasks.py:374); success writes (processing, 90) then, after the
optional S3 upload whose exception is swallowed (tasks.py:362-367),
(completed, 100) (tasks.py:358-371). -/
def task_writes (o : TaskOracles) (job_id : String) (rd : RequestData) :
    List JobWrite :=
  match generate_script o.openai_chat o.json_loads rd.story rd.duration rd.tiktok with
  | .error e =>
      [⟨"processing", 10, none⟩, ⟨"failed", 0, some e⟩]
  | .ok _ =>
      if task_stitch_success o job_id rd then
        [⟨"processing", 10, none⟩, ⟨"processing", 20, none⟩,
         ⟨"processing", 40, none⟩, ⟨"processing", 60, none⟩,
         ⟨"processing", 90, none⟩, ⟨"completed", 100, none⟩]
      else
        [⟨"processing", 10, none⟩, ⟨"processing", 20, none⟩,
         ⟨"processing", 40, none⟩, ⟨"processing", 60, none⟩,
         ⟨"failed", 0, some "Video stitching failed"⟩]

/-- Fold a sequence of task writes into the store via `update_job_progress`. -/
def apply_writes (now job_id : String) (store : Store) (ws : List JobWrite) : Store :=
  ws.foldl (fun st w => update_job_progress now st job_id w.status w.progress w.error) store

/-- Observable outcome of one execution of `generate_video_task`: the store
after all writes, the write trace itself, and whether the S3 upload was
attempted / completed (the upload outcome is otherwise unobservable in the job
record, its exception being swallowed at tasks.py:366-367). -/
structure TaskRun where
  store : Store
  writes : List JobWrite
  upload_attempted : Bool
  uploaded : Bool

/-- Model of `generate_video_task` (tasks.py:323-379) as a whole. -/
def generate_video_task (o : TaskOracles) (now : String) (store : Store)
    (job_id : String) (rd : RequestData) : TaskRun :=
  let ws := task_writes o job_id rd
  let success := task_stitch_success o job_id rd
  { store := apply_writes now job_id store ws
    writes := ws
    upload_attempted := success && bucket_configured o
    uploaded := success && bucket_configured o && o.s3Ok }

/-- Sample run used to instantiate the theorems below: every collaborator
succeeds except image generation, which fails for every scene, so the single
scene of the parsed script yields no playable segment and the stitch stage
fails. -/
def sampleFailOracles : TaskOracles :=
  { openai_chat := fun _ => .ok "raw"
    json_loads := fun _ => some ⟨"T", [⟨1, 30, "n", "d", 0, 30⟩]⟩
    imgOk := fun _ _ => false
    voiceOk := fun _ => true
    audioDur := fun _ => 1
    ffmpegOk := fun _ => true
    concatOk := true
    s3_bucket := none
    s3Ok := true }

/-- The same collaborators with image generation succeeding: the whole
pipeline succeeds. -/
def sampleGoodOracles : TaskOracles :=
  { sampleFailOracles with imgOk := fun _ _ => true }

/-- A freshly created job record, as written by POST /generate. -/
def sampleRecord : JobRecord :=
  { job_id := "j", story := "Adam and Eve", duration := 15, resolution := "HD",
    tiktok := false, status := "queued", progress := 0, created_at := "t0",
    updated_at := none, error := none }

/-- The validated request parameters matching `sampleRecord`. -/
def sampleRequest : RequestData :=
  { story := "Adam and Eve", duration := 15, resolution := "HD", tiktok := false }

/-- The status transitions the job record may take: queued→processing,
processing→processing and processing→(completed | failed); completed and
failed are terminal. -/
def allowed_transition (a b : String) : Prop :=
  (a = "queued" ∧ b = "processing") ∨
  (a = "processing" ∧ (b = "processing" ∨ b = "completed" ∨ b = "failed"))

instance : DecidableRel allowed_transition := fun a b =>
  inferInstanceAs (Decidable ((a = "queued" ∧ b = "processing") ∨
    (a = "processing" ∧ (b = "processing" ∨ b = "completed" ∨ b = "failed"))))

/-- The failed job record produced by the sample failing run. -/
def sampleFailedRecord : JobRecord :=
  { sampleRecord with
    status := "failed"
    progress := 0
    updated_at := some "t1"
    error := some "Video stitching failed" }

/-- A two-scene script used to exercise partial degradation. -/
def sampleTwoSceneScript : Script :=
  ⟨"T", [⟨1, 30, "n1", "d1", 0, 30⟩, ⟨2, 30, "n2", "d2", 30, 60⟩]⟩

/-- Collaborators for which the script has two scenes and image generation
succeeds only at loop index 0: exactly one of the two scenes is degraded. -/
def sampleMixedOracles : TaskOracles :=
  { sampleFailOracles with
    json_loads := fun _ => some sampleTwoSceneScript
    imgOk := fun i _ => i == 0 }

/-!  Helper lemmas about the store and the write trace. -/

/-- The record change `update_job_progress` applies to an existing record. -/
def write_fold (now : String) (rec : JobRecord) (w : JobWrite) : JobRecord :=
  { rec with
    status := w.status
    progress := w.progress
    error := match w.error with
             | some e => if e = "" then rec.error else some e
             | none => rec.error
    updated_at := some now }

theorem get_update_job_progress (now : String) (s : Store) (job_id status : String)
    (progress : Int) (error : Option String) (rec : JobRecord)
    (h : s.get s!"job:{job_id}" = some rec) :
    (update_job_progress now s job_id status progress error).get s!"job:{job_id}"
      = some (write_fold now rec ⟨status, progress, error⟩) := by
  unfold update_job_progress
  rw [h]
  simp [Store.get, Store.set, List.find?, write_fold]

theorem get_apply_writes (now job_id : String) (ws : List JobWrite) (s : Store)
    (rec : JobRecord) (h : s.get s!"job:{job_id}" = some rec) :
    (apply_writes now job_id s ws).get s!"job:{job_id}"
      = some (ws.foldl (write_fold now) rec) := by
  induction ws generalizing s rec with
  | nil => simpa [apply_writes] using h
  | cons w ws ih =>
      simp only [apply_writes, List.foldl_cons] at *
      exact ih _ _ (get_update_job_progress now s job_id w.status w.progress w.error rec h)

theorem generate_script_error_iff (openai_chat : String → Except String String)
    (json_loads : String → Option Script) (story : String) (duration : Int)
    (tiktok_format : Bool) (e : String) :
    generate_script openai_chat json_loads story duration tiktok_format = .error e ↔
      openai_chat (script_prompt story duration tiktok_format) = .error e := by
  unfold generate_script
  cases openai_chat (script_prompt story duration tiktok_format) with
  | error e' => simp
  | ok c => cases h : json_loads c <;> simp [h]

/-- C10: when the script collaborator's response text is not parseable as JSON,
`generate_script` does not raise and does not fail the job: it returns the
fallback single-scene script whose scene number is 1, whose duration is the
requested duration times 60 seconds, and whose narration is the raw response
text (tasks.py:102-114). -/
theorem generate_script_json_fallback
    (openai_chat : String → Except String String) (json_loads : String → Option Script)
    (story : String) (duration : Int) (tiktok_format : Bool) (content : String)
    (hresp : openai_chat (script_prompt story duration tiktok_format) = .ok content)
    (hparse : json_loads content = none) :
    generate_script openai_chat json_loads story duration tiktok_format =
      .ok { title := story
            scenes := [{ scene_number := 1
                         duration := duration * 60
                         narration := content
                         image_description := s!"Biblical scene depicting {story}"
                         timing_start := 0
                         timing_end := duration * 60 }] } := by
  unfold generate_script
  rw [hresp]
  dsimp only
  rw [hparse]

theorem generate_script_json_fallback_witness :
    generate_script (fun _ => .ok "unparseable text") (fun _ => none)
        "Adam and Eve" 15 false =
      .ok { title := "Adam and Eve"
            scenes := [{ scene_number := 1
                         duration := 900
                         narration := "unparseable text"
                         image_description := "Biblical scene depicting Adam and Eve"
                         timing_start := 0
                         timing_end := 900 }] } := by
  have h := generate_script_json_fallback (fun _ => .ok "unparseable text")
    (fun _ => none) "Adam and Eve" 15 false "unparseable text" rfl rfl
  exact h

/-- C6: POST /generate (with all four required fields present) answers 400
with an error exactly when the story is outside the known set, the duration is
outside [10, 25], or the resolution is not one of HD / Full HD / 4K; every
valid submission stores a fresh record with status queued and progress 0,
returns its job id, and an immediate status query reports queued with
progress 0. -/
theorem generate_video_validation
    (uuid now : String) (store : Store) (story : String) (duration : Int)
    (resolution : String) (tiktok : Bool) :
    ((∃ e, (generate_video uuid now store
        ⟨some story, some duration, some resolution, some tiktok⟩).1 = .badRequest e) ↔
      (story ∉ BIBLE_STORIES ∨ ¬ (10 ≤ duration ∧ duration ≤ 25) ∨
        resolution ∉ valid_resolutions))
    ∧ (story ∈ BIBLE_STORIES → 10 ≤ duration → duration ≤ 25 →
        resolution ∈ valid_resolutions →
        (generate_video uuid now store
            ⟨some story, some duration, some resolution, some tiktok⟩).1
          = .accepted uuid "queued" "Video generation started"
        ∧ (generate_video uuid now store
            ⟨some story, some duration, some resolution, some tiktok⟩).2.get s!"job:{uuid}"
          = some ⟨uuid, story, duration, resolution, tiktok, "queued", 0, now, none, none⟩
        ∧ get_job_status (generate_video uuid now store
            ⟨some story, some duration, some resolution, some tiktok⟩).2 uuid
          = .ok uuid "queued" 0 now none) := by
  constructor
  · unfold generate_video
    dsimp only
    split_ifs with h1 h2 h3 <;> simp_all
  · intro hs hd1 hd2 hr
    unfold generate_video
    dsimp only
    rw [if_neg (not_not_intro hs), if_neg (not_not_intro ⟨hd1, hd2⟩),
      if_neg (not_not_intro hr)]
    refine ⟨rfl, ?_, ?_⟩ <;>
      simp [Store.get, Store.set, get_job_status, List.find?]

theorem generate_video_validation_witness :
    ((generate_video "u1" "t0" [] ⟨some "Adam and Eve", some 15, some "HD", some false⟩).1
      = .accepted "u1" "queued" "Video generation started")
    ∧ ((∃ e, (generate_video "u1" "t0" []
        ⟨some "Atlantis", some 15, some "HD", some false⟩).1 = .badRequest e)) := by
  constructor
  · exact (generate_video_validation "u1" "t0" [] "Adam and Eve" 15 "HD" false).2
      (by decide) (by decide) (by decide) (by decide) |>.1
  · exact (generate_video_validation "u1" "t0" [] "Atlantis" 15 "HD" false).1.2
      (Or.inl (by decide))

/-- C9: GET /download streams the artifact named from the job's story exactly
when the record exists with status completed and the artifact file exists; a
non-completed record gives 400, and a missing record or missing file gives
404 (app.py:134-158). -/
theorem download_video_spec (files : List String) (store : Store) (job_id : String) :
    ((∃ p n, download_video files store job_id = .fileStream p n) ↔
      ∃ rec, store.get s!"job:{job_id}" = some rec ∧ rec.status = "completed"
        ∧ s!"/tmp/videos/{job_id}.mp4" ∈ files)
    ∧ (∀ rec, store.get s!"job:{job_id}" = some rec → rec.status = "completed" →
        s!"/tmp/videos/{job_id}.mp4" ∈ files →
        download_video files store job_id
          = .fileStream s!"/tmp/videos/{job_id}.mp4" s!"{rec.story}.mp4")
    ∧ (store.get s!"job:{job_id}" = none →
        download_video files store job_id = .notFound "Job not found")
    ∧ (∀ rec, store.get s!"job:{job_id}" = some rec → rec.status ≠ "completed" →
        download_video files store job_id = .badRequest "Video not ready for download")
    ∧ (∀ rec, store.get s!"job:{job_id}" = some rec → rec.status = "completed" →
        s!"/tmp/videos/{job_id}.mp4" ∉ files →
        download_video files store job_id = .notFound "Video file not found") := by
  unfold download_video
  cases hget : store.get s!"job:{job_id}" with
  | none => simp [hget]
  | some rec =>
      by_cases hst : rec.status = "completed"
      · by_cases hf : s!"/tmp/videos/{job_id}.mp4" ∈ files
        · simp [hget, hst, hf]
        · simp [hget, hst, hf]
      · simp [hget, hst]

/-- C7: across the job's lifetime (created queued, then one status per update
call of the single execution attempt) consecutive statuses always follow
`allowed_transition`; that relation admits no transition out of completed or
failed; and a write carries a non-null error argument only when its status is
failed. -/
theorem status_transition_discipline (o : TaskOracles) (job_id : String)
    (rd : RequestData) :
    List.Chain' allowed_transition
      ("queued" :: (task_writes o job_id rd).map (fun w => w.status))
    ∧ (∀ b, ¬ allowed_transition "completed" b)
    ∧ (∀ b, ¬ allowed_transition "failed" b)
    ∧ (∀ w ∈ task_writes o job_id rd, w.error ≠ none → w.status = "failed") := by
  refine ⟨?_, ?_, ?_, ?_⟩
  · rcases hgs : generate_script o.openai_chat o.json_loads rd.story rd.duration
        rd.tiktok with e | s
    · simp [task_writes, hgs, List.chain'_cons, allowed_transition]
    · rcases hss : task_stitch_success o job_id rd with _ | _ <;>
        simp [task_writes, hgs, hss, List.chain'_cons, allowed_transition]
  · intro b h
    rcases h with ⟨h1, _⟩ | ⟨h1, _⟩ <;> exact absurd h1 (by decide)
  · intro b h
    rcases h with ⟨h1, _⟩ | ⟨h1, _⟩ <;> exact absurd h1 (by decide)
  · rcases hgs : generate_script o.openai_chat o.json_loads rd.story rd.duration
        rd.tiktok with e | s
    · simp [task_writes, hgs]
    · rcases hss : task_stitch_success o job_id rd with _ | _ <;>
        simp [task_writes, hgs, hss]

/-- C8: the S3 upload outcome is invisible in the job record: with composition
succeeded, the write trace and final store do not depend on the upload oracle,
the job ends completed with progress 100, and the upload is attempted exactly
when the bucket configuration is present (non-empty). -/
theorem upload_stage_optional
    (o : TaskOracles) (b : Bool) (now : String) (store : Store) (job_id : String)
    (rd : RequestData) (rec0 : JobRecord)
    (h0 : store.get s!"job:{job_id}" = some rec0)
    (hsucc : task_stitch_success o job_id rd = true) :
    ((generate_video_task { o with s3Ok := b } now store job_id rd).writes
        = (generate_video_task o now store job_id rd).writes
      ∧ (generate_video_task { o with s3Ok := b } now store job_id rd).store
        = (generate_video_task o now store job_id rd).store)
    ∧ (∃ rec, (generate_video_task o now store job_id rd).store.get s!"job:{job_id}"
          = some rec ∧ rec.status = "completed" ∧ rec.progress = 100)
    ∧ (generate_video_task o now store job_id rd).upload_attempted
        = bucket_configured o := by
  refine ⟨⟨rfl, rfl⟩, ?_, ?_⟩
  · rcases hgs : generate_script o.openai_chat o.json_loads rd.story rd.duration
        rd.tiktok with e | s
    · simp [task_stitch_success, hgs] at hsucc
    · have hws : (generate_video_task o now store job_id rd).store
          = apply_writes now job_id store
              [⟨"processing", 10, none⟩, ⟨"processing", 20, none⟩,
               ⟨"processing", 40, none⟩, ⟨"processing", 60, none⟩,
               ⟨"processing", 90, none⟩, ⟨"completed", 100, none⟩] := by
        simp [generate_video_task, task_writes, hgs, hsucc]
      rw [hws, get_apply_writes now job_id _ store rec0 h0]
      exact ⟨_, rfl, by simp [List.foldl, write_fold], by simp [List.foldl, write_fold]⟩
  · simp [generate_video_task, hsucc]

theorem upload_stage_optional_witness :
    (((generate_video_task { sampleGoodOracles with s3_bucket := some "bkt", s3Ok := false }
          "t1" [("job:j", sampleRecord)] "j" sampleRequest).writes
        = (generate_video_task { sampleGoodOracles with s3_bucket := some "bkt" }
          "t1" [("job:j", sampleRecord)] "j" sampleRequest).writes
      ∧ (generate_video_task { sampleGoodOracles with s3_bucket := some "bkt", s3Ok := false }
          "t1" [("job:j", sampleRecord)] "j" sampleRequest).store
        = (generate_video_task { sampleGoodOracles with s3_bucket := some "bkt" }
          "t1" [("job:j", sampleRecord)] "j" sampleRequest).store)
    ∧ (∃ rec, (generate_video_task { sampleGoodOracles with s3_bucket := some "bkt" }
          "t1" [("job:j", sampleRecord)] "j" sampleRequest).store.get "job:j"
          = some rec ∧ rec.status = "completed" ∧ rec.progress = 100)
    ∧ (generate_video_task { sampleGoodOracles with s3_bucket := some "bkt" }
        "t1" [("job:j", sampleRecord)] "j" sampleRequest).upload_attempted
        = bucket_configured { sampleGoodOracles with s3_bucket := some "bkt" }) :=
  upload_stage_optional { sampleGoodOracles with s3_bucket := some "bkt" } false
    "t1" [("job:j", sampleRecord)] "j" sampleRequest sampleRecord
    (by decide) (by decide)

/-- C1 (amended): a job whose execution attempt ends failed has progress 0 —
the failure write overwrites the last checkpoint with 0 (tasks.py:374, 379) —
and a non-empty error, provided the raised exception's message is non-empty
(the stitch-failure path always records 'Video stitching failed'). -/
theorem failed_job_progress_zero
    (o : TaskOracles) (now : String) (store : Store) (job_id : String)
    (rd : RequestData) (rec0 rec : JobRecord)
    (h0 : store.get s!"job:{job_id}" = some rec0)
    (hmsg : ∀ m, o.openai_chat (script_prompt rd.story rd.duration rd.tiktok)
      = .error m → m ≠ "")
    (hrec : (generate_video_task o now store job_id rd).store.get s!"job:{job_id}"
      = some rec)
    (hfail : rec.status = "failed") :
    rec.progress = 0 ∧ ∃ m, rec.error = some m ∧ m ≠ "" := by
  rcases hgs : generate_script o.openai_chat o.json_loads rd.story rd.duration
      rd.tiktok with e | s
  · have hm : e ≠ "" := hmsg e ((generate_script_error_iff o.openai_chat
      o.json_loads rd.story rd.duration rd.tiktok e).1 hgs)
    have hws : (generate_video_task o now store job_id rd).store
        = apply_writes now job_id store
            [⟨"processing", 10, none⟩, ⟨"failed", 0, some e⟩] := by
      simp [generate_video_task, task_writes, hgs]
    rw [hws, get_apply_writes now job_id _ store rec0 h0] at hrec
    simp only [Option.some.injEq] at hrec
    subst hrec
    refine ⟨?_, e, ?_, hm⟩ <;>
      simp [List.foldl_cons, List.foldl_nil, write_fold, hm]
  · rcases hss : task_stitch_success o job_id rd with _ | _
    · have hws : (generate_video_task o now store job_id rd).store
          = apply_writes now job_id store
              [⟨"processing", 10, none⟩, ⟨"processing", 20, none⟩,
               ⟨"processing", 40, none⟩, ⟨"processing", 60, none⟩,
               ⟨"failed", 0, some "Video stitching failed"⟩] := by
        simp [generate_video_task, task_writes, hgs, hss]
      rw [hws, get_apply_writes now job_id _ store rec0 h0] at hrec
      simp only [Option.some.injEq] at hrec
      subst hrec
      refine ⟨?_, "Video stitching failed", ?_, by decide⟩ <;>
        simp [List.foldl_cons, List.foldl_nil, write_fold]
    · have hws : (generate_video_task o now store job_id rd).store
          = apply_writes now job_id store
              [⟨"processing", 10, none⟩, ⟨"processing", 20, none⟩,
               ⟨"processing", 40, none⟩, ⟨"processing", 60, none⟩,
               ⟨"processing", 90, none⟩, ⟨"completed", 100, none⟩] := by
        simp [generate_video_task, task_writes, hgs, hss]
      rw [hws, get_apply_writes now job_id _ store rec0 h0] at hrec
      simp only [Option.some.injEq] at hrec
      subst hrec
      simp [List.foldl_cons, List.foldl_nil, write_fold] at hfail

theorem failed_job_progress_zero_witness :
    sampleFailedRecord.progress = 0
    ∧ ∃ m, sampleFailedRecord.error = some m ∧ m ≠ "" :=
  failed_job_progress_zero sampleFailOracles "t1" [("job:j", sampleRecord)] "j"
    sampleRequest sampleRecord sampleFailedRecord (by decide)
    (by intro m h; simp [sampleFailOracles] at h) (by decide) (by decide)

/-- C1 counterexample: in a concrete failing run the last successfully
completed stage checkpoint is 60 (voiceover), but the failure write stores
progress 0, not 60: the claim "progress equals the last successfully completed
stage's checkpoint value" is false on the code. -/
theorem failed_job_progress_zero_cex :
    ((task_writes sampleFailOracles "j" sampleRequest).map
        (fun w => (w.status, w.progress))
      = [("processing", 10), ("processing", 20), ("processing", 40),
         ("processing", 60), ("failed", 0)])
    ∧ ((generate_video_task sampleFailOracles "t1" [("job:j", sampleRecord)] "j"
          sampleRequest).store.get "job:j").map (fun rec => (rec.status, rec.progress))
      = some ("failed", 0)
    ∧ (0 : Int) ≠ 60 := by decide

/-- C2 (amended): within one execution attempt the progress writes are
monotonically non-decreasing as long as no failure happens; the only decrease
is the terminal transition to failed, which is the last write of the attempt
and stores progress 0. -/
theorem progress_monotone_until_failure (o : TaskOracles) (job_id : String)
    (rd : RequestData) :
    List.Pairwise (fun a b => b.status ≠ "failed" → a.progress ≤ b.progress)
      (task_writes o job_id rd)
    ∧ (∀ k w, (task_writes o job_id rd)[k]? = some w → w.status = "failed" →
        w.progress = 0 ∧ k + 1 = (task_writes o job_id rd).length) := by
  rcases hgs : generate_script o.openai_chat o.json_loads rd.story rd.duration
      rd.tiktok with e | s
  · constructor
    · simp [task_writes, hgs, List.pairwise_cons]
    · intro k w hk hw
      simp only [task_writes, hgs] at hk ⊢
      rcases k with _ | _ | k <;> (try cases hk) <;> simp_all
  · rcases hss : task_stitch_success o job_id rd with _ | _
    · constructor
      · simp [task_writes, hgs, hss, List.pairwise_cons]
      · intro k w hk hw
        simp only [task_writes, hgs, hss, Bool.false_eq_true, if_false] at hk ⊢
        rcases k with _ | _ | _ | _ | _ | k <;> (try cases hk) <;> simp_all
    · constructor
      · simp [task_writes, hgs, hss, List.pairwise_cons]
      · intro k w hk hw
        simp only [task_writes, hgs, hss, if_true] at hk ⊢
        rcases k with _ | _ | _ | _ | _ | _ | k <;> (try cases hk) <;> simp_all

theorem progress_monotone_until_failure_witness :
    (⟨"failed", 0, some "Video stitching failed"⟩ : JobWrite).progress = 0
    ∧ 4 + 1 = (task_writes sampleFailOracles "j" sampleRequest).length :=
  (progress_monotone_until_failure sampleFailOracles "j" sampleRequest).2 4
    ⟨"failed", 0, some "Video stitching failed"⟩ (by decide) (by decide)

/-- C2 counterexample: in a concrete attempt the fourth write stores progress
60 and the fifth (the failure write) stores progress 0, a strictly lower value
written later in the same attempt: the claim that no write stores a lower
value than an earlier one is false on the code. -/
theorem progress_monotone_until_failure_cex :
    ((task_writes sampleFailOracles "j" sampleRequest)[3]?).map (fun w => w.progress)
      = some 60
    ∧ ((task_writes sampleFailOracles "j" sampleRequest)[4]?).map (fun w => w.progress)
      = some 0
    ∧ ¬ ((60 : Int) ≤ 0) := by decide

theorem status_transition_discipline_witness :
    (⟨"failed", 0, some "Video stitching failed"⟩ : JobWrite).status = "failed" :=
  (status_transition_discipline sampleFailOracles "j" sampleRequest).2.2.2
    ⟨"failed", 0, some "Video stitching failed"⟩ (by decide) (by decide)

/-- C5: both per-scene stages return exactly one artifact record per input
scene — the stage never raises once all scenes have been attempted, a
collaborator failure for a scene merely producing a record with a null file
reference — and each record carries its scene's number. -/
theorem per_scene_best_effort
    (imgOk : Nat → String → Bool) (voiceOk : Nat → Bool) (audioDur : Nat → ℚ)
    (scenes : List Scene) (resolution : String) (script_data : Script) :
    ((generate_images imgOk scenes resolution).length = scenes.length
      ∧ ∀ i a, (generate_images imgOk scenes resolution)[i]? = some a →
          ∃ s, scenes[i]? = some s ∧ a.scene_number = s.scene_number
            ∧ (a.path = none ↔ imgOk i (resolution_dims resolution) = false))
    ∧ ((generate_voiceover voiceOk audioDur script_data).length
        = script_data.scenes.length
      ∧ ∀ i a, (generate_voiceover voiceOk audioDur script_data)[i]? = some a →
          ∃ s, script_data.scenes[i]? = some s ∧ a.scene_number = s.scene_number
            ∧ (a.path = none ↔ voiceOk i = false)) := by
  refine ⟨⟨?_, ?_⟩, ?_, ?_⟩
  · simp [generate_images]
  · intro i a ha
    simp only [generate_images, List.getElem?_map, List.getElem?_enum] at ha
    cases hs : scenes[i]? with
    | none => rw [hs] at ha; simp at ha
    | some s =>
        rw [hs] at ha
        simp only [Option.map_some', Option.some.injEq] at ha
        subst ha
        refine ⟨s, rfl, ?_, ?_⟩ <;>
          by_cases h : imgOk i (resolution_dims resolution) <;> simp [h]
  · simp [generate_voiceover]
  · intro i a ha
    simp only [generate_voiceover, List.getElem?_map, List.getElem?_enum] at ha
    cases hs : script_data.scenes[i]? with
    | none => rw [hs] at ha; simp at ha
    | some s =>
        rw [hs] at ha
        simp only [Option.map_some', Option.some.injEq] at ha
        subst ha
        refine ⟨s, rfl, ?_, ?_⟩ <;>
          by_cases h : voiceOk i <;> simp [h]

theorem per_scene_best_effort_witness :
    ∃ s, (sampleTwoSceneScript.scenes)[1]? = some s
      ∧ (MediaArtifact.mk 2 none 30).scene_number = s.scene_number
      ∧ ((MediaArtifact.mk 2 none 30).path = none ↔
          (fun (i : Nat) (_ : String) => i == 0) 1 (resolution_dims "HD") = false) :=
  (per_scene_best_effort (fun i _ => i == 0) (fun _ => true) (fun _ => 1)
      sampleTwoSceneScript.scenes "HD" sampleTwoSceneScript).1.2
    1 (MediaArtifact.mk 2 none 30) (by decide)

/-!  List lemmas used to characterise the composition stage. -/

theorem find?_eq_head?_filter {α : Type} (p : α → Bool) (l : List α) :
    l.find? p = (l.filter p).head? := by
  induction l with
  | nil => rfl
  | cons a l ih =>
      by_cases h : p a
      · rw [List.find?_cons_of_pos _ h, List.filter_cons_of_pos h,
          List.head?_cons]
      · rw [List.find?_cons_of_neg _ (by simpa using h),
          List.filter_cons_of_neg (by simpa using h), ih]

theorem filter_key_length_le_one (l : List MediaArtifact) (k : Int)
    (hnd : (l.map (fun a => a.scene_number)).Nodup) :
    (l.filter (fun a => a.scene_number == k)).length ≤ 1 := by
  induction l with
  | nil => simp
  | cons a l ih =>
      simp only [List.map_cons, List.nodup_cons] at hnd
      by_cases h : a.scene_number == k
      · have hnil : l.filter (fun b => b.scene_number == k) = [] := by
          rw [List.filter_eq_nil_iff]
          intro b hb hbk
          exact hnd.1 (by
            have hbk' : b.scene_number = k := by simpa using hbk
            have hak : a.scene_number = k := by simpa using h
            rw [hak, ← hbk']
            exact List.mem_map_of_mem (fun x => x.scene_number) hb)
        simp [h, hnil]
      · simpa [h] using ih hnd.2

theorem find?_key_perm {l l2 : List MediaArtifact} (hp : l.Perm l2) (k : Int)
    (hnd : (l.map (fun a => a.scene_number)).Nodup) :
    l.find? (fun a => a.scene_number == k) = l2.find? (fun a => a.scene_number == k) := by
  rw [find?_eq_head?_filter, find?_eq_head?_filter]
  have hperm := hp.filter (fun a => a.scene_number == k)
  have hlen := filter_key_length_le_one l k hnd
  cases hfl : l.filter (fun a => a.scene_number == k) with
  | nil =>
      rw [hfl] at hperm
      rw [hperm.symm.eq_nil]
  | cons a t =>
      rw [hfl] at hperm hlen
      cases t with
      | cons b t2 => simp at hlen
      | nil => rw [← List.singleton_perm.1 hperm]

theorem length_filterMap_ite {α β : Type} (c : α → Bool) (g : α → β) (l : List α) :
    (l.filterMap (fun a => if c a then some (g a) else none)).length
      = (l.filter c).length := by
  induction l with
  | nil => rfl
  | cons a l ih => by_cases h : c a <;> simp [List.filterMap_cons, h, ih]

theorem filterMap_eq_filter_map {α β : Type} (f : α → Option β) (g : α → β)
    (hfg : ∀ a b, f a = some b → b = g a) (l : List α) :
    l.filterMap f = (l.filter (fun a => (f a).isSome)).map g := by
  induction l with
  | nil => rfl
  | cons a l ih =>
      cases hfa : f a with
      | none => simp [List.filterMap_cons, hfa, ih]
      | some b => simp [List.filterMap_cons, hfa, ih, hfg a b hfa]

theorem find?_enumFrom_map (f : Nat → Scene → MediaArtifact)
    (hf : ∀ i s, (f i s).scene_number = s.scene_number) :
    ∀ (scenes : List Scene) (n i : Nat) (s : Scene),
      (scenes.map (fun sc => sc.scene_number)).Nodup →
      (i, s) ∈ scenes.enumFrom n →
      ((scenes.enumFrom n).map (fun p => f p.1 p.2)).find?
          (fun a => a.scene_number == s.scene_number) = some (f i s) := by
  intro scenes
  induction scenes with
  | nil => intro n i s _ h; simp at h
  | cons sc rest ih =>
      intro n i s hnd hmem
      simp only [List.enumFrom_cons, List.map_cons] at hmem ⊢
      simp only [List.map_cons, List.nodup_cons] at hnd
      rcases List.mem_cons.1 hmem with heq | htail
      · injection heq with h1 h2
        subst h1
        subst h2
        rw [List.find?_cons_of_pos _ (by simp [hf])]
      · have hs_mem : s ∈ rest := by
          have := List.mem_map_of_mem Prod.snd htail
          rwa [List.enumFrom_map_snd] at this
        have hne : ¬ (sc.scene_number = s.scene_number) := fun hcontra => by
          exact hnd.1 (hcontra ▸ List.mem_map_of_mem (fun x => x.scene_number) hs_mem)
        rw [List.find?_cons_of_neg _ (by simp [hf, hne])]
        exact ih (n + 1) i s hnd.2 htail

theorem generate_images_eq (imgOk : Nat → String → Bool) (scenes : List Scene)
    (resolution : String) :
    generate_images imgOk scenes resolution
      = scenes.enum.map (fun p =>
          if imgOk p.1 (resolution_dims resolution) then
            ⟨p.2.scene_number, some (image_file p.1), (p.2.duration : ℚ)⟩
          else ⟨p.2.scene_number, none, (p.2.duration : ℚ)⟩) := rfl

theorem generate_voiceover_eq (voiceOk : Nat → Bool) (audioDur : Nat → ℚ)
    (script_data : Script) :
    generate_voiceover voiceOk audioDur script_data
      = script_data.scenes.enum.map (fun p =>
          if voiceOk p.1 then
            ⟨p.2.scene_number, some (audio_file p.1), audioDur p.1⟩
          else ⟨p.2.scene_number, none, (p.2.duration : ℚ)⟩) := rfl

/-- On the artifacts actually produced by the two generation stages (with
their files on disk), the composition loop keeps exactly the scenes whose
image, audio and per-segment ffmpeg run all succeeded, producing the segment
file of the scene's loop index. -/
theorem stitch_segments_generated
    (imgOk : Nat → String → Bool) (voiceOk : Nat → Bool) (audioDur : Nat → ℚ)
    (ffmpegOk : Nat → Bool) (script_data : Script) (resolution : String)
    (hnd : (script_data.scenes.map (fun sc => sc.scene_number)).Nodup) :
    stitch_segments ffmpegOk
        ((generate_images imgOk script_data.scenes resolution).filterMap (fun a => a.path)
          ++ (generate_voiceover voiceOk audioDur script_data).filterMap (fun a => a.path))
        (generate_images imgOk script_data.scenes resolution)
        (generate_voiceover voiceOk audioDur script_data)
        script_data.scenes
      = script_data.scenes.enum.filterMap (fun p =>
          if imgOk p.1 (resolution_dims resolution) && voiceOk p.1 && ffmpegOk p.1
          then some (segment_file p.1) else none) := by
  unfold stitch_segments
  apply List.filterMap_congr
  intro p hp
  obtain ⟨i, s⟩ := p
  have hfi : (generate_images imgOk script_data.scenes resolution).find?
      (fun a => a.scene_number == s.scene_number)
      = some (if imgOk i (resolution_dims resolution) then
          ⟨s.scene_number, some (image_file i), (s.duration : ℚ)⟩
        else ⟨s.scene_number, none, (s.duration : ℚ)⟩) := by
    rw [generate_images_eq]
    exact find?_enumFrom_map
      (fun i s => if imgOk i (resolution_dims resolution) then
          ⟨s.scene_number, some (image_file i), (s.duration : ℚ)⟩
        else ⟨s.scene_number, none, (s.duration : ℚ)⟩)
      (fun i s => by by_cases h : imgOk i (resolution_dims resolution) <;> simp [h])
      script_data.scenes 0 i s hnd hp
  have hfa : (generate_voiceover voiceOk audioDur script_data).find?
      (fun a => a.scene_number == s.scene_number)
      = some (if voiceOk i then
          ⟨s.scene_number, some (audio_file i), audioDur i⟩
        else ⟨s.scene_number, none, (s.duration : ℚ)⟩) := by
    rw [generate_voiceover_eq]
    exact find?_enumFrom_map
      (fun i s => if voiceOk i then
          ⟨s.scene_number, some (audio_file i), audioDur i⟩
        else ⟨s.scene_number, none, (s.duration : ℚ)⟩)
      (fun i s => by by_cases h : voiceOk i <;> simp [h])
      script_data.scenes 0 i s hnd hp
  by_cases hi : imgOk i (resolution_dims resolution)
  · by_cases hv : voiceOk i
    · have hmi : image_file i
          ∈ (generate_images imgOk script_data.scenes resolution).filterMap
            (fun a => a.path) := by
        refine List.mem_filterMap.2
          ⟨⟨s.scene_number, some (image_file i), (s.duration : ℚ)⟩, ?_, rfl⟩
        rw [generate_images_eq]
        have := List.mem_map_of_mem (fun p : Nat × Scene =>
          if imgOk p.1 (resolution_dims resolution) then
            (⟨p.2.scene_number, some (image_file p.1), (p.2.duration : ℚ)⟩ : MediaArtifact)
          else ⟨p.2.scene_number, none, (p.2.duration : ℚ)⟩) hp
        simpa [hi] using this
      have hma : audio_file i
          ∈ (generate_voiceover voiceOk audioDur script_data).filterMap
            (fun a => a.path) := by
        refine List.mem_filterMap.2
          ⟨⟨s.scene_number, some (audio_file i), audioDur i⟩, ?_, rfl⟩
        rw [generate_voiceover_eq]
        have := List.mem_map_of_mem (fun p : Nat × Scene =>
          if voiceOk p.1 then
            (⟨p.2.scene_number, some (audio_file p.1), audioDur p.1⟩ : MediaArtifact)
          else ⟨p.2.scene_number, none, (p.2.duration : ℚ)⟩) hp
        simpa [hv] using this
      simp only [hfi, hfa, hi, hv, if_true]
      simp [List.contains, List.mem_append, hmi, hma]
    · simp only [hfi, hfa, hi, hv, if_true, if_false]
      simp [hv]
  · simp only [hfi, hfa, hi, if_false]
    simp [hi]

/-- C3 (amended): with distinct scene numbers, successful ffmpeg runs and K of
N scenes lacking an image or audio artifact, the composition succeeds with
exactly N−K sub-clips when 0 < K < N; when K = N no segment is produced,
composition fails and the job transitions to failed — with the error message
'Video stitching failed' (the "no playable segments" condition is only logged
as 'No video segments to concatenate', tasks.py:316, not stored). -/
theorem partial_degradation
    (o : TaskOracles) (now : String) (store : Store) (job_id : String)
    (rd : RequestData) (rec0 : JobRecord) (script_data : Script)
    (h0 : store.get s!"job:{job_id}" = some rec0)
    (hgs : generate_script o.openai_chat o.json_loads rd.story rd.duration
      rd.tiktok = .ok script_data)
    (hnd : (script_data.scenes.map (fun sc => sc.scene_number)).Nodup)
    (hff : ∀ i, o.ffmpegOk i = true) (hcc : o.concatOk = true) :
    (0 < ((List.range script_data.scenes.length).filter (fun i =>
        !(o.imgOk i (resolution_dims rd.resolution) && o.voiceOk i))).length →
     ((List.range script_data.scenes.length).filter (fun i =>
        !(o.imgOk i (resolution_dims rd.resolution) && o.voiceOk i))).length
        < script_data.scenes.length →
      task_stitch_success o job_id rd = true
      ∧ (stitch_segments o.ffmpegOk
          ((generate_images o.imgOk script_data.scenes rd.resolution).filterMap
              (fun a => a.path)
            ++ (generate_voiceover o.voiceOk o.audioDur script_data).filterMap
              (fun a => a.path))
          (generate_images o.imgOk script_data.scenes rd.resolution)
          (generate_voiceover o.voiceOk o.audioDur script_data)
          script_data.scenes).length
        = script_data.scenes.length
          - ((List.range script_data.scenes.length).filter (fun i =>
              !(o.imgOk i (resolution_dims rd.resolution) && o.voiceOk i))).length)
    ∧ (((List.range script_data.scenes.length).filter (fun i =>
          !(o.imgOk i (resolution_dims rd.resolution) && o.voiceOk i))).length
        = script_data.scenes.length →
      task_stitch_success o job_id rd = false
      ∧ ∃ rec, (generate_video_task o now store job_id rd).store.get s!"job:{job_id}"
          = some rec ∧ rec.status = "failed"
          ∧ rec.error = some "Video stitching failed") := by
  have hseg := stitch_segments_generated o.imgOk o.voiceOk o.audioDur o.ffmpegOk
    script_data rd.resolution hnd
  have hlen1 : (stitch_segments o.ffmpegOk
        ((generate_images o.imgOk script_data.scenes rd.resolution).filterMap
            (fun a => a.path)
          ++ (generate_voiceover o.voiceOk o.audioDur script_data).filterMap
            (fun a => a.path))
        (generate_images o.imgOk script_data.scenes rd.resolution)
        (generate_voiceover o.voiceOk o.audioDur script_data)
        script_data.scenes).length
      = (script_data.scenes.enum.filter (fun p =>
          o.imgOk p.1 (resolution_dims rd.resolution) && o.voiceOk p.1)).length := by
    rw [hseg]
    simp only [hff, Bool.and_true]
    exact length_filterMap_ite _ _ _
  have hlen2 : (script_data.scenes.enum.filter (fun p =>
        o.imgOk p.1 (resolution_dims rd.resolution) && o.voiceOk p.1)).length
      = ((List.range script_data.scenes.length).filter (fun i =>
          o.imgOk i (resolution_dims rd.resolution) && o.voiceOk i)).length := by
    conv_rhs => rw [← List.enum_map_fst script_data.scenes]
    rw [List.filter_map, List.length_map]
    rfl
  have hsum : ((List.range script_data.scenes.length).filter (fun i =>
        o.imgOk i (resolution_dims rd.resolution) && o.voiceOk i)).length
      + ((List.range script_data.scenes.length).filter (fun i =>
        !(o.imgOk i (resolution_dims rd.resolution) && o.voiceOk i))).length
      = script_data.scenes.length := by
    have h := List.length_eq_length_filter_add
      (l := List.range script_data.scenes.length)
      (fun i => o.imgOk i (resolution_dims rd.resolution) && o.voiceOk i)
    rw [List.length_range] at h
    omega
  constructor
  · intro _ hKN
    have hlen : (stitch_segments o.ffmpegOk
        ((generate_images o.imgOk script_data.scenes rd.resolution).filterMap
            (fun a => a.path)
          ++ (generate_voiceover o.voiceOk o.audioDur script_data).filterMap
            (fun a => a.path))
        (generate_images o.imgOk script_data.scenes rd.resolution)
        (generate_voiceover o.voiceOk o.audioDur script_data)
        script_data.scenes).length
        = script_data.scenes.length
          - ((List.range script_data.scenes.length).filter (fun i =>
              !(o.imgOk i (resolution_dims rd.resolution) && o.voiceOk i))).length := by
      omega
    refine ⟨?_, hlen⟩
    have hne : ¬ (stitch_segments o.ffmpegOk
        ((generate_images o.imgOk script_data.scenes rd.resolution).filterMap
            (fun a => a.path)
          ++ (generate_voiceover o.voiceOk o.audioDur script_data).filterMap
            (fun a => a.path))
        (generate_images o.imgOk script_data.scenes rd.resolution)
        (generate_voiceover o.voiceOk o.audioDur script_data)
        script_data.scenes) = [] := by
      intro hcontra
      rw [hcontra] at hlen1
      simp at hlen1
      omega
    simp only [task_stitch_success, hgs, stitch_video]
    simp only [List.isEmpty_iff]
    rw [if_neg hne]
    exact hcc
  · intro hKN
    have hnil : stitch_segments o.ffmpegOk
        ((generate_images o.imgOk script_data.scenes rd.resolution).filterMap
            (fun a => a.path)
          ++ (generate_voiceover o.voiceOk o.audioDur script_data).filterMap
            (fun a => a.path))
        (generate_images o.imgOk script_data.scenes rd.resolution)
        (generate_voiceover o.voiceOk o.audioDur script_data)
        script_data.scenes = [] := by
      rw [← List.length_eq_zero]
      omega
    have hfail : task_stitch_success o job_id rd = false := by
      simp only [task_stitch_success, hgs, stitch_video]
      simp [hnil]
    refine ⟨hfail, ?_⟩
    have hws : (generate_video_task o now store job_id rd).store
        = apply_writes now job_id store
            [⟨"processing", 10, none⟩, ⟨"processing", 20, none⟩,
             ⟨"processing", 40, none⟩, ⟨"processing", 60, none⟩,
             ⟨"failed", 0, some "Video stitching failed"⟩] := by
      simp [generate_video_task, task_writes, hgs, hfail]
    rw [hws, get_apply_writes now job_id _ store rec0 h0]
    exact ⟨_, rfl, by simp [List.foldl_cons, List.foldl_nil, write_fold],
      by simp [List.foldl_cons, List.foldl_nil, write_fold]⟩

theorem partial_degradation_witness :
    task_stitch_success sampleMixedOracles "j" sampleRequest = true
    ∧ (stitch_segments sampleMixedOracles.ffmpegOk
        ((generate_images sampleMixedOracles.imgOk sampleTwoSceneScript.scenes
            sampleRequest.resolution).filterMap (fun a => a.path)
          ++ (generate_voiceover sampleMixedOracles.voiceOk
              sampleMixedOracles.audioDur sampleTwoSceneScript).filterMap
            (fun a => a.path))
        (generate_images sampleMixedOracles.imgOk sampleTwoSceneScript.scenes
          sampleRequest.resolution)
        (generate_voiceover sampleMixedOracles.voiceOk sampleMixedOracles.audioDur
          sampleTwoSceneScript)
        sampleTwoSceneScript.scenes).length
      = sampleTwoSceneScript.scenes.length
        - ((List.range sampleTwoSceneScript.scenes.length).filter (fun i =>
            !(sampleMixedOracles.imgOk i (resolution_dims sampleRequest.resolution)
              && sampleMixedOracles.voiceOk i))).length :=
  (partial_degradation sampleMixedOracles "t1" [("job:j", sampleRecord)] "j"
      sampleRequest sampleRecord sampleTwoSceneScript (by decide) (by rfl)
      (by decide) (fun i => rfl) rfl).1 (by decide) (by decide)

/-- C3 counterexample: in a concrete K = N run the job does fail, but the
stored error is 'Video stitching failed'; the phrase "no playable segments"
appears nowhere in it, so the claim's error message is wrong on the code. -/
theorem partial_degradation_cex :
    ((generate_video_task sampleFailOracles "t1" [("job:j", sampleRecord)] "j"
        sampleRequest).store.get "job:j").map (fun rec => (rec.status, rec.error))
      = some ("failed", some "Video stitching failed")
    ∧ ¬ ("no playable segments".toList <:+: "Video stitching failed".toList) := by
  decide

/-- The composition loop's per-scene lookup depends only on which artifact
carries each scene number, not on artifact list order. -/
theorem stitch_segments_perm (ffmpegOk : Nat → Bool) (files : List String)
    (images images2 audio audio2 : List MediaArtifact) (scenes : List Scene)
    (hpi : images.Perm images2) (hpa : audio.Perm audio2)
    (hni : (images.map (fun a => a.scene_number)).Nodup)
    (hna : (audio.map (fun a => a.scene_number)).Nodup) :
    stitch_segments ffmpegOk files images2 audio2 scenes
      = stitch_segments ffmpegOk files images audio scenes := by
  unfold stitch_segments
  apply List.filterMap_congr
  intro p _
  dsimp only
  rw [← find?_key_perm hpi p.2.scene_number hni,
    ← find?_key_perm hpa p.2.scene_number hna]

/-- C4: the sub-clips concatenated by the composition stage follow the Script
sequence — they are the image of a sublist of the enumerated scene list, so
with strictly increasing scene numbers in the Script the composed order is
strictly increasing — and the output is invariant under any permutation of the
artifact lists, i.e. independent of per-scene generation completion order. -/
theorem composition_scene_order
    (ffmpegOk : Nat → Bool) (files : List String)
    (images audio_files images2 audio_files2 : List MediaArtifact)
    (scenes : List Scene)
    (hsorted : List.Sorted (fun a b => a < b) (scenes.map (fun sc => sc.scene_number)))
    (hni : (images.map (fun a => a.scene_number)).Nodup)
    (hna : (audio_files.map (fun a => a.scene_number)).Nodup)
    (hpi : images.Perm images2) (hpa : audio_files.Perm audio_files2) :
    stitch_segments ffmpegOk files images2 audio_files2 scenes
      = stitch_segments ffmpegOk files images audio_files scenes
    ∧ ∃ kept : List (Nat × Scene), kept.Sublist scenes.enum
        ∧ stitch_segments ffmpegOk files images audio_files scenes
            = kept.map (fun p => segment_file p.1)
        ∧ List.Sorted (fun a b => a < b) (kept.map (fun p => p.2.scene_number)) := by
  refine ⟨stitch_segments_perm ffmpegOk files images images2 audio_files
    audio_files2 scenes hpi hpa hni hna, ?_⟩
  have hbody : ∀ (p : Nat × Scene) (q : String),
      (fun p : Nat × Scene =>
        let image_path := (images.find? (fun img =>
          img.scene_number == p.2.scene_number)).bind (fun img => img.path)
        let audio_path := (audio_files.find? (fun a =>
          a.scene_number == p.2.scene_number)).bind (fun a => a.path)
        match image_path, audio_path with
        | some ip, some ap =>
            if files.contains ip && files.contains ap then
              if ffmpegOk p.1 then some (segment_file p.1) else none
            else none
        | _, _ => none) p = some q → q = segment_file p.1 := by
    intro p q h
    dsimp only at h
    split at h
    · split_ifs at h with hc hf
      simp_all
    · simp at h
  have hsseg : stitch_segments ffmpegOk files images audio_files scenes
      = scenes.enum.filterMap (fun p : Nat × Scene =>
        let image_path := (images.find? (fun img =>
          img.scene_number == p.2.scene_number)).bind (fun img => img.path)
        let audio_path := (audio_files.find? (fun a =>
          a.scene_number == p.2.scene_number)).bind (fun a => a.path)
        match image_path, audio_path with
        | some ip, some ap =>
            if files.contains ip && files.contains ap then
              if ffmpegOk p.1 then some (segment_file p.1) else none
            else none
        | _, _ => none) := rfl
  rw [hsseg, filterMap_eq_filter_map _ (fun p => segment_file p.1) hbody]
  refine ⟨_, List.filter_sublist _, rfl, ?_⟩
  have henum : scenes.enum.map (fun p : Nat × Scene => p.2.scene_number)
      = scenes.map (fun sc => sc.scene_number) := by
    rw [show (fun p : Nat × Scene => p.2.scene_number)
        = (fun sc : Scene => sc.scene_number) ∘ Prod.snd from rfl]
    rw [← List.map_map, List.enum_map_snd]
  refine hsorted.sublist ?_
  rw [← henum]
  exact List.Sublist.map _ (List.filter_sublist _)

theorem composition_scene_order_witness :
    stitch_segments sampleMixedOracles.ffmpegOk
        ["/tmp/images/scene_1.png", "/tmp/audio/scene_1.wav", "/tmp/audio/scene_2.wav"]
        (generate_images sampleMixedOracles.imgOk sampleTwoSceneScript.scenes "HD").reverse
        (generate_voiceover sampleMixedOracles.voiceOk sampleMixedOracles.audioDur
          sampleTwoSceneScript).reverse
        sampleTwoSceneScript.scenes
      = stitch_segments sampleMixedOracles.ffmpegOk
        ["/tmp/images/scene_1.png", "/tmp/audio/scene_1.wav", "/tmp/audio/scene_2.wav"]
        (generate_images sampleMixedOracles.imgOk sampleTwoSceneScript.scenes "HD")
        (generate_voiceover sampleMixedOracles.voiceOk sampleMixedOracles.audioDur
          sampleTwoSceneScript)
        sampleTwoSceneScript.scenes :=
  (composition_scene_order sampleMixedOracles.ffmpegOk
      ["/tmp/images/scene_1.png", "/tmp/audio/scene_1.wav", "/tmp/audio/scene_2.wav"]
      (generate_images sampleMixedOracles.imgOk sampleTwoSceneScript.scenes "HD")
      (generate_voiceover sampleMixedOracles.voiceOk sampleMixedOracles.audioDur
        sampleTwoSceneScript)
      (generate_images sampleMixedOracles.imgOk sampleTwoSceneScript.scenes "HD").reverse
      (generate_voiceover sampleMixedOracles.voiceOk sampleMixedOracles.audioDur
        sampleTwoSceneScript).reverse
      sampleTwoSceneScript.scenes
      (by simp [sampleTwoSceneScript, List.Sorted, List.pairwise_cons])
      (by decide) (by decide)
      (List.reverse_perm _).symm (List.reverse_perm _).symm).1

theorem download_video_spec_witness :
    download_video ["/tmp/videos/j.mp4"]
        [("job:j", { sampleRecord with status := "completed" })] "j"
      = .fileStream "/tmp/videos/j.mp4" "Adam and Eve.mp4" := by
  exact (download_video_spec ["/tmp/videos/j.mp4"]
      [("job:j", { sampleRecord with status := "completed" })] "j").2.1
    { sampleRecord with status := "completed" } (by decide) (by decide) (by decide)

end BibleVideo
